import Mathlib

/-!
Verification of the statement-level CST of the RSLint parser.

The definitions below are a shallow embedding of
`src/rslint-parse/src/parser/cst/stmt.rs`.  Types that the statement CST
uses but that are defined outside that file (the span primitive, trivia,
expression and declaration leaves, diagnostics, and the statement-parsing
routines) are modelled from the specification and carry a doc comment
saying so.
-/

/-- Modelled from the spec: `Span` lives in `crate::span`, outside the
statement CST file.  It is an immutable half-open byte-offset interval
`[start, end)` over the source buffer. -/
structure Span where
  start : Nat
  «end» : Nat
deriving DecidableEq

/-- Modelled from the spec: the constructor `Span::new(start, end)`. -/
def Span.new (start «end» : Nat) : Span :=
  ⟨start, «end»⟩

/-- Modelled from the spec: `LiteralWhitespace` is defined in the
expression CST file, outside `stmt.rs`.  It is a pair of trivia spans,
`before` and `after` a syntactically significant token. -/
structure LiteralWhitespace where
  before : Span
  after : Span
deriving DecidableEq

/-- Modelled from the spec: expression parsing is an external
collaborator; an `Expr` is consumed here as a leaf that exposes its
`span()`. -/
structure Expr where
  span : Span
deriving DecidableEq

/-- Modelled from the spec: a literal/identifier expression leaf with a
stored `span` field, used for declarator names, labels and catch
parameters. -/
structure LiteralExpr where
  span : Span
deriving DecidableEq

/-- Modelled from the spec: declaration parsing is an external
collaborator producing `Declaration` nodes for statement-list items. -/
structure Declaration where
  span : Span
deriving DecidableEq

/-- Modelled from the spec: the kind of a structured diagnostic emitted by
the statement parser (the parser never formats messages itself). -/
inductive DiagnosticKind where
  | ExpectedCatchOrFinally
  | DuplicateDefaultClause
deriving DecidableEq

/-- Modelled from the spec: a recoverable error is reported as
`{span, expected, found}`-shaped data; here the expected/found pair is
abstracted into a `DiagnosticKind`. -/
structure Diagnostic where
  span : Span
  kind : DiagnosticKind
deriving DecidableEq

/-- From `stmt.rs`: a statement terminator, either an automatically
inserted semicolon or a semicolon explicitly typed out. -/
inductive Semicolon where
  | Implicit
  | Explicit (data : LiteralWhitespace)
deriving DecidableEq

/-- From `stmt.rs`: the span of an explicit semicolon, or `None` if the
semicolon is implicit. -/
def Semicolon.span : Semicolon → Option Span
  | Semicolon.Explicit data => some (Span.new data.before.«end» data.after.start)
  | Semicolon.Implicit => none

/-- From `stmt.rs`: `offset` is `0` when `self == &Semicolon::Implicit`
and `1` otherwise. -/
def Semicolon.offset (s : Semicolon) : Nat :=
  if s = Semicolon.Implicit then 0 else 1

/-- From `stmt.rs`: a single variable declarator. -/
structure Declarator where
  span : Span
  name : LiteralExpr
  value : Option Expr
  initializer_whitespace : Option LiteralWhitespace
deriving DecidableEq

/-- From `stmt.rs`: the `span()` accessor of a declarator — the span of
the value if it has one, or the span of the name otherwise.  (The Rust
method shares its name with the stored `span` field; Lean needs a
distinct name for the accessor.) -/
def Declarator.span' (d : Declarator) : Span :=
  (d.value.map Expr.span).getD d.name.span

/-- Modelled from the spec: the variable-declaration parsing routine is
not under `src/`; it constructs a `Declarator` from a name and an
optional initializer, where the whitespace of the `=` and the value
expression are parsed together as one optional unit. -/
def mkDeclarator (span : Span) (name : LiteralExpr)
    (initializer : Option (LiteralWhitespace × Expr)) : Declarator :=
  ⟨span, name, initializer.map Prod.snd, initializer.map Prod.fst⟩

/-- From `stmt.rs`: a `var` statement. -/
structure VarStmt where
  span : Span
  declared : List Declarator
  comma_whitespaces : List LiteralWhitespace
  var_whitespace : LiteralWhitespace
  semi : Semicolon
deriving DecidableEq

/-- From `stmt.rs`: an empty statement (a lone `;`). -/
structure EmptyStmt where
  span : Span
  semi_whitespace : LiteralWhitespace
deriving DecidableEq

/-- From `stmt.rs`: an expression statement. -/
structure ExprStmt where
  span : Span
  expr : Expr
  semi : Semicolon
deriving DecidableEq

/-- From `stmt.rs`: a `throw` statement. -/
structure ThrowStmt where
  span : Span
  arg : Expr
  semi : Semicolon
  throw_whitespace : LiteralWhitespace
deriving DecidableEq

/-- From `stmt.rs`: a `break` statement. -/
structure BreakStmt where
  span : Span
  break_whitespace : LiteralWhitespace
  label : Option LiteralExpr
  semi : Semicolon
deriving DecidableEq

/-- From `stmt.rs`: a `continue` statement. -/
structure ContinueStmt where
  span : Span
  continue_whitespace : LiteralWhitespace
  label : Option LiteralExpr
  semi : Semicolon
deriving DecidableEq

/-- From `stmt.rs`: a `return` statement. -/
structure ReturnStmt where
  span : Span
  return_whitespace : LiteralWhitespace
  value : Option Expr
  semi : Semicolon
deriving DecidableEq

/-- From `stmt.rs`: the initializer / left-hand side shared by the two
`for` statement forms. -/
inductive ForStmtInit where
  | Expr (data : Expr)
  | Var (data : VarStmt)
deriving DecidableEq

mutual

/-- From `stmt.rs`: the closed sum type of statements, one variant per
statement form. -/
inductive Stmt where
  | Variable (data : VarStmt)
  | Empty (data : EmptyStmt)
  | Block (data : BlockStmt)
  | Expr (data : ExprStmt)
  | If (data : IfStmt)
  | Switch (data : SwitchStmt)
  | Throw (data : ThrowStmt)
  | While (data : WhileStmt)
  | DoWhile (data : DoWhileStmt)
  | Labelled (data : LabelledStmt)
  | Break (data : BreakStmt)
  | Continue (data : ContinueStmt)
  | Return (data : ReturnStmt)
  | Try (data : TryStmt)
  | For (data : ForStmt)
  | ForIn (data : ForInStmt)
  | With (data : WithStmt)

/-- From `stmt.rs`: a block statement; its body is stored as a sequence
of `Stmt`. -/
inductive BlockStmt where
  | mk (span : Span) (stmts : List Stmt)
      (open_brace_whitespace : LiteralWhitespace)
      (close_brace_whitespace : LiteralWhitespace)

/-- From `stmt.rs`: an `if` statement. -/
inductive IfStmt where
  | mk (span : Span) (if_whitespace : LiteralWhitespace)
      (open_paren_whitespace : LiteralWhitespace)
      (close_paren_whitespace : LiteralWhitespace)
      (condition : Expr) (cons : Stmt)
      (else_whitespace : Option LiteralWhitespace) (alt : Option Stmt)

/-- From `stmt.rs`: one `case`/`default` clause of a switch; its body is
stored as a sequence of `Stmt`. -/
inductive Case where
  | mk (span : Span) (default : Bool) (whitespace : LiteralWhitespace)
      (colon_whitespace : LiteralWhitespace) (test : Option Expr)
      (cons : List Stmt)

/-- From `stmt.rs`: a `switch` statement owning an ordered sequence of
cases. -/
inductive SwitchStmt where
  | mk (span : Span) (switch_whitespace : LiteralWhitespace)
      (open_paren_whitespace : LiteralWhitespace)
      (close_paren_whitespace : LiteralWhitespace) (test : Expr)
      (open_brace_whitespace : LiteralWhitespace)
      (close_brace_whitespace : LiteralWhitespace) (cases : List Case)

/-- From `stmt.rs`: a `while` statement. -/
inductive WhileStmt where
  | mk (span : Span) (while_whitespace : LiteralWhitespace)
      (open_paren_whitespace : LiteralWhitespace)
      (close_paren_whitespace : LiteralWhitespace)
      (condition : Expr) (cons : Stmt)

/-- From `stmt.rs`: a `do … while` statement. -/
inductive DoWhileStmt where
  | mk (span : Span) (do_whitespace : LiteralWhitespace)
      (while_whitespace : LiteralWhitespace)
      (open_paren_whitespace : LiteralWhitespace)
      (close_paren_whitespace : LiteralWhitespace)
      (condition : Expr) (cons : Stmt)

/-- From `stmt.rs`: a labelled statement. -/
inductive LabelledStmt where
  | mk (span : Span) (label : LiteralExpr)
      (colon_whitespace : LiteralWhitespace) (body : Stmt)

/-- From `stmt.rs`: the `catch` clause of a `try` statement. -/
inductive CatchClause where
  | mk (span : Span) (catch_whitespace : LiteralWhitespace)
      (open_paren_whitespace : LiteralWhitespace)
      (close_paren_whitespace : LiteralWhitespace)
      (param : LiteralExpr) (body : BlockStmt)

/-- From `stmt.rs`: a `try` statement with an optional handler and an
optional finalizer. -/
inductive TryStmt where
  | mk (span : Span) (try_whitespace : LiteralWhitespace)
      (test : BlockStmt) (handler : Option CatchClause)
      (finalizer : Option BlockStmt)
      (final_whitespace : Option LiteralWhitespace)

/-- From `stmt.rs`: a three-clause `for` statement. -/
inductive ForStmt where
  | mk (span : Span) (for_whitespace : LiteralWhitespace)
      (open_paren_whitespace : LiteralWhitespace)
      (close_paren_whitespace : LiteralWhitespace)
      (init : Option ForStmtInit) (test : Option Expr)
      (update : Option Expr) (body : Stmt)
      (init_semicolon_whitespace : LiteralWhitespace)
      (test_semicolon_whitespace : LiteralWhitespace)

/-- From `stmt.rs`: a `for … in` statement. -/
inductive ForInStmt where
  | mk (span : Span) (for_whitespace : LiteralWhitespace)
      (open_paren_whitespace : LiteralWhitespace)
      (close_paren_whitespace : LiteralWhitespace)
      (left : ForStmtInit) (right : Expr)
      (in_whitespace : LiteralWhitespace) (body : Stmt)

/-- From `stmt.rs`: a `with` statement. -/
inductive WithStmt where
  | mk (span : Span) (with_whitespace : LiteralWhitespace)
      (open_paren_whitespace : LiteralWhitespace)
      (close_paren_whitespace : LiteralWhitespace)
      (object : Expr) (body : Stmt)

end

/-- From `stmt.rs`: the unit held by a statement list, either a
declaration or a statement. -/
inductive StmtListItem where
  | Declaration (data : Declaration)
  | Stmt (data : Stmt)

/-- Stored `span` field of a block statement. -/
def BlockStmt.span : BlockStmt → Span
  | .mk s _ _ _ => s

/-- Body of a block statement, as stored: a sequence of `Stmt`. -/
def BlockStmt.stmts : BlockStmt → List Stmt
  | .mk _ l _ _ => l

/-- Stored `span` field of an `if` statement. -/
def IfStmt.span : IfStmt → Span
  | .mk s _ _ _ _ _ _ _ => s

/-- Stored `span` field of a switch case. -/
def Case.span : Case → Span
  | .mk s _ _ _ _ _ => s

/-- Stored `default` flag of a switch case. -/
def Case.default : Case → Bool
  | .mk _ d _ _ _ _ => d

/-- Stored `test` expression of a switch case. -/
def Case.test : Case → Option Expr
  | .mk _ _ _ _ t _ => t

/-- Body of a switch case, as stored: a sequence of `Stmt`. -/
def Case.cons : Case → List Stmt
  | .mk _ _ _ _ _ c => c

/-- Stored `span` field of a `switch` statement. -/
def SwitchStmt.span : SwitchStmt → Span
  | .mk s _ _ _ _ _ _ _ => s

/-- Stored case sequence of a `switch` statement. -/
def SwitchStmt.cases : SwitchStmt → List Case
  | .mk _ _ _ _ _ _ _ cs => cs

/-- Stored `span` field of a `while` statement. -/
def WhileStmt.span : WhileStmt → Span
  | .mk s _ _ _ _ _ => s

/-- Stored `span` field of a `do … while` statement. -/
def DoWhileStmt.span : DoWhileStmt → Span
  | .mk s _ _ _ _ _ _ => s

/-- Stored `span` field of a labelled statement. -/
def LabelledStmt.span : LabelledStmt → Span
  | .mk s _ _ _ => s

/-- Stored `span` field of a `catch` clause. -/
def CatchClause.span : CatchClause → Span
  | .mk s _ _ _ _ _ => s

/-- Stored `span` field of a `try` statement. -/
def TryStmt.span : TryStmt → Span
  | .mk s _ _ _ _ _ => s

/-- Stored `handler` field of a `try` statement. -/
def TryStmt.handler : TryStmt → Option CatchClause
  | .mk _ _ _ h _ _ => h

/-- Stored `finalizer` field of a `try` statement. -/
def TryStmt.finalizer : TryStmt → Option BlockStmt
  | .mk _ _ _ _ f _ => f

/-- Stored `span` field of a `for` statement. -/
def ForStmt.span : ForStmt → Span
  | .mk s _ _ _ _ _ _ _ _ _ => s

/-- Stored `span` field of a `for … in` statement. -/
def ForInStmt.span : ForInStmt → Span
  | .mk s _ _ _ _ _ _ _ => s

/-- Stored `span` field of a `with` statement. -/
def WithStmt.span : WithStmt → Span
  | .mk s _ _ _ _ _ => s

/-- From `stmt.rs`: `Stmt::span`, a single exhaustive match over all
variants, returning the stored `span` field of the wrapped struct. -/
def Stmt.span : Stmt → Span
  | .Variable data => data.span
  | .Empty data => data.span
  | .Block data => data.span
  | .Expr data => data.span
  | .If data => data.span
  | .Switch data => data.span
  | .Throw data => data.span
  | .While data => data.span
  | .DoWhile data => data.span
  | .Labelled data => data.span
  | .Break data => data.span
  | .Continue data => data.span
  | .Return data => data.span
  | .Try data => data.span
  | .For data => data.span
  | .ForIn data => data.span
  | .With data => data.span

/-- Index of a statement's variant, in the order the source declares the
variants. -/
def Stmt.tag : Stmt → Fin 17
  | .Variable _ => 0
  | .Empty _ => 1
  | .Block _ => 2
  | .Expr _ => 3
  | .If _ => 4
  | .Switch _ => 5
  | .Throw _ => 6
  | .While _ => 7
  | .DoWhile _ => 8
  | .Labelled _ => 9
  | .Break _ => 10
  | .Continue _ => 11
  | .Return _ => 12
  | .Try _ => 13
  | .For _ => 14
  | .ForIn _ => 15
  | .With _ => 16

/-- Whether a statement-list item is a statement rather than a
declaration. -/
def StmtListItem.isStmt : StmtListItem → Bool
  | .Stmt _ => true
  | .Declaration _ => false

/-- A block body viewed as statement-list items: the source stores the
body as `Vec<Stmt>`, so each element is wrapped with
`StmtListItem::Stmt`. -/
def BlockStmt.items (b : BlockStmt) : List StmtListItem :=
  b.stmts.map StmtListItem.Stmt

/-- A switch-case body viewed as statement-list items: the source stores
the body as `Vec<Stmt>`, so each element is wrapped with
`StmtListItem::Stmt`. -/
def Case.items (c : Case) : List StmtListItem :=
  c.cons.map StmtListItem.Stmt

/-- Modelled from the spec: the try-statement routine of the statement
parser, which is not under `src/`.  After parsing `try <block>` it
parses an optional catch clause and an optional finally clause (the
`finally` keyword's whitespace together with its block); when both are
absent it emits an expected-token diagnostic and still returns a
best-effort tree. -/
def parseTry (span : Span) (try_whitespace : LiteralWhitespace)
    (test : BlockStmt) (handler : Option CatchClause)
    (finalClause : Option (LiteralWhitespace × BlockStmt)) :
    TryStmt × List Diagnostic :=
  (TryStmt.mk span try_whitespace test handler (finalClause.map Prod.snd)
      (finalClause.map Prod.fst),
    if handler.isNone && finalClause.isNone then
      [Diagnostic.mk span DiagnosticKind.ExpectedCatchOrFinally]
    else [])

/-- Modelled from the spec: one clause of a switch body as the parser
reads it from the source text — either `case <test>: <body>` or
`default: <body>`. -/
inductive CaseClause where
  | Case (span : Span) (whitespace : LiteralWhitespace)
      (colon_whitespace : LiteralWhitespace) (test : Expr)
      (cons : List Stmt)
  | Default (span : Span) (whitespace : LiteralWhitespace)
      (colon_whitespace : LiteralWhitespace) (cons : List Stmt)

/-- Whether a clause is a `default:` clause. -/
def CaseClause.isDefault : CaseClause → Bool
  | .Case _ _ _ _ _ => false
  | .Default _ _ _ _ => true

/-- Number of `default:` clauses in a switch body. -/
def countDefaults (cls : List CaseClause) : Nat :=
  cls.countP CaseClause.isDefault

/-- Modelled from the spec: the `Case` node a clause yields in a valid
parse — a `case` clause has `default = false` and `test = Some`, a
`default` clause has `default = true` and `test = None`. -/
def mkCase : CaseClause → Case
  | .Case sp ws cw t body => Case.mk sp false ws cw (some t) body
  | .Default sp ws cw body => Case.mk sp true ws cw none body

/-- Modelled from the spec: the switch-body routine of the statement
parser, which is not under `src/`.  It walks the clauses in source
order tracking whether a `default:` clause has been seen; a second
`default:` clause yields a recoverable diagnostic and a best-effort
placeholder case (a non-default case with no test) so the surrounding
structure stays a valid tree. -/
def parseCases : List CaseClause → Bool → List Case × List Diagnostic
  | [], _ => ([], [])
  | CaseClause.Case sp ws cw t body :: rest, seenDefault =>
    let r := parseCases rest seenDefault
    (Case.mk sp false ws cw (some t) body :: r.1, r.2)
  | CaseClause.Default sp ws cw body :: rest, seenDefault =>
    if seenDefault then
      let r := parseCases rest seenDefault
      (Case.mk sp false ws cw none body :: r.1,
        Diagnostic.mk sp DiagnosticKind.DuplicateDefaultClause :: r.2)
    else
      let r := parseCases rest true
      (Case.mk sp true ws cw none body :: r.1, r.2)

/-- Modelled from the spec: the case sequence and diagnostics the parser
produces for a switch body. -/
def parseSwitchCases (cls : List CaseClause) : List Case × List Diagnostic :=
  parseCases cls false

/-- Modelled from the spec: the switch-statement routine, assembling the
`SwitchStmt` node from the parsed header parts and the case clauses. -/
def parseSwitch (span : Span) (switch_whitespace : LiteralWhitespace)
    (open_paren_whitespace : LiteralWhitespace)
    (close_paren_whitespace : LiteralWhitespace) (test : Expr)
    (open_brace_whitespace : LiteralWhitespace)
    (close_brace_whitespace : LiteralWhitespace)
    (cls : List CaseClause) : SwitchStmt × List Diagnostic :=
  let r := parseSwitchCases cls
  (SwitchStmt.mk span switch_whitespace open_paren_whitespace
      close_paren_whitespace test open_brace_whitespace
      close_brace_whitespace r.1, r.2)

/-- A zero-width span used to build concrete sample nodes. -/
def span0 : Span := Span.new 0 0

/-- Empty trivia used to build concrete sample nodes. -/
def ws0 : LiteralWhitespace := ⟨span0, span0⟩

/-- A concrete expression leaf. -/
def expr0 : Expr := ⟨span0⟩

/-- A concrete literal-expression leaf. -/
def lit0 : LiteralExpr := ⟨span0⟩

/-- A concrete declaration leaf. -/
def decl0 : Declaration := ⟨span0⟩

/-- A concrete declarator with no initializer. -/
def declarator0 : Declarator := ⟨span0, lit0, none, none⟩

/-- A concrete `var` statement. -/
def varStmt0 : VarStmt := ⟨span0, [declarator0], [], ws0, Semicolon.Implicit⟩

/-- A concrete empty statement. -/
def emptyStmt0 : EmptyStmt := ⟨span0, ws0⟩

/-- A concrete expression statement. -/
def exprStmt0 : ExprStmt := ⟨span0, expr0, Semicolon.Implicit⟩

/-- A concrete block statement with an empty body. -/
def block0 : BlockStmt := BlockStmt.mk span0 [] ws0 ws0

/-- A concrete `if` statement. -/
def if0 : IfStmt :=
  IfStmt.mk span0 ws0 ws0 ws0 expr0 (Stmt.Empty emptyStmt0) none none

/-- A concrete non-default switch case. -/
def case0 : Case := Case.mk span0 false ws0 ws0 (some expr0) [Stmt.Empty emptyStmt0]

/-- A concrete `switch` statement. -/
def switch0 : SwitchStmt := SwitchStmt.mk span0 ws0 ws0 ws0 expr0 ws0 ws0 [case0]

/-- A concrete `throw` statement. -/
def throw0 : ThrowStmt := ⟨span0, expr0, Semicolon.Implicit, ws0⟩

/-- A concrete `while` statement. -/
def while0 : WhileStmt := WhileStmt.mk span0 ws0 ws0 ws0 expr0 (Stmt.Empty emptyStmt0)

/-- A concrete `do … while` statement. -/
def doWhile0 : DoWhileStmt :=
  DoWhileStmt.mk span0 ws0 ws0 ws0 ws0 expr0 (Stmt.Empty emptyStmt0)

/-- A concrete labelled statement. -/
def labelled0 : LabelledStmt := LabelledStmt.mk span0 lit0 ws0 (Stmt.Empty emptyStmt0)

/-- A concrete `break` statement. -/
def break0 : BreakStmt := ⟨span0, ws0, none, Semicolon.Implicit⟩

/-- A concrete `continue` statement. -/
def continue0 : ContinueStmt := ⟨span0, ws0, none, Semicolon.Implicit⟩

/-- A concrete `return` statement. -/
def return0 : ReturnStmt := ⟨span0, ws0, none, Semicolon.Implicit⟩

/-- A concrete `catch` clause. -/
def catch0 : CatchClause := CatchClause.mk span0 ws0 ws0 ws0 lit0 block0

/-- A concrete `try` statement. -/
def try0 : TryStmt := TryStmt.mk span0 ws0 block0 (some catch0) none none

/-- A concrete `for` statement. -/
def for0 : ForStmt :=
  ForStmt.mk span0 ws0 ws0 ws0 none none none (Stmt.Empty emptyStmt0) ws0 ws0

/-- A concrete `for … in` statement. -/
def forIn0 : ForInStmt :=
  ForInStmt.mk span0 ws0 ws0 ws0 (ForStmtInit.Expr expr0) expr0 ws0
    (Stmt.Empty emptyStmt0)

/-- A concrete `with` statement. -/
def with0 : WithStmt := WithStmt.mk span0 ws0 ws0 ws0 expr0 (Stmt.Empty emptyStmt0)

/-- One concrete statement of each of the 17 variants, in declaration
order. -/
def stmtSamples : List Stmt :=
  [Stmt.Variable varStmt0, Stmt.Empty emptyStmt0, Stmt.Block block0,
   Stmt.Expr exprStmt0, Stmt.If if0, Stmt.Switch switch0, Stmt.Throw throw0,
   Stmt.While while0, Stmt.DoWhile doWhile0, Stmt.Labelled labelled0,
   Stmt.Break break0, Stmt.Continue continue0, Stmt.Return return0,
   Stmt.Try try0, Stmt.For for0, Stmt.ForIn forIn0, Stmt.With with0]

/-- A statement realizing each variant index. -/
def Stmt.ofTag (i : Fin 17) : Stmt :=
  stmtSamples.getD i.val (Stmt.Empty emptyStmt0)

/-- A concrete declarator whose name span and value span start at
different offsets (as from the source text `var a = b`). -/
def sampleDeclarator : Declarator :=
  ⟨Span.new 0 5, ⟨Span.new 0 1⟩, some ⟨Span.new 4 5⟩, some ws0⟩

/-- A concrete block whose body holds one (empty) statement. -/
def cexBlock : BlockStmt :=
  BlockStmt.mk (Span.new 0 3) [Stmt.Empty emptyStmt0] ws0 ws0

/-- C1: `Semicolon::Implicit.offset()` returns 0, `Semicolon::Explicit(_).offset()`
returns 1, and `Semicolon::Implicit.span()` returns `None`. -/
theorem semicolon_offset_law :
    Semicolon.Implicit.offset = 0
    ∧ (∀ w : LiteralWhitespace, (Semicolon.Explicit w).offset = 1)
    ∧ Semicolon.Implicit.span = none := by
  refine ⟨rfl, fun w => ?_, rfl⟩
  simp [Semicolon.offset]

/-- C2: for every explicit semicolon, `span()` returns
`Some(Span::new(before.end, after.start))`, the span of the semicolon
glyph itself, excluding the surrounding trivia. -/
theorem semicolon_explicit_span (w : LiteralWhitespace) :
    (Semicolon.Explicit w).span = some (Span.new w.before.«end» w.after.start) :=
  rfl

/-- C3: a declarator's `span()` accessor returns the span of its value
expression when the value is present, and otherwise the span of its
name. -/
theorem declarator_span_accessor (d : Declarator) :
    (∀ v : Expr, d.value = some v → d.span' = v.span)
    ∧ (d.value = none → d.span' = d.name.span) := by
  constructor
  · intro v h
    simp [Declarator.span', h]
  · intro h
    simp [Declarator.span', h]

/-- C4 (amended): for a declarator whose value is present, `span()`
returns exactly the value's span — it ends at the end of the value's
span, but it also starts at the start of the value's span, not at the
start of the name's span. -/
theorem declarator_span_value_only (d : Declarator) (v : Expr)
    (h : d.value = some v) :
    d.span' = v.span ∧ d.span'.«end» = v.span.«end» := by
  simp [Declarator.span', h]

/-- C4 witness: the amended statement holds at a concrete declarator
with an initializer. -/
theorem declarator_span_value_only_witness :
    sampleDeclarator.span' = Expr.span ⟨Span.new 4 5⟩
    ∧ sampleDeclarator.span'.«end» = (Expr.span ⟨Span.new 4 5⟩).«end» :=
  declarator_span_value_only sampleDeclarator ⟨Span.new 4 5⟩ rfl

/-- C4 counterexample: at a concrete declarator (name span `[0,1)`,
value span `[4,5)`), the span returned by `span()` does not start at
the start of the name's span. -/
theorem declarator_span_not_name_start :
    decide ((Declarator.span' sampleDeclarator).start
      = sampleDeclarator.name.span.start) = false := by
  decide

/-- C10: a semicolon's `span()` is `Some` exactly when its `offset()` is
1, i.e. exactly for the explicit variant. -/
theorem semicolon_span_offset_agree (s : Semicolon) :
    (s.span).isSome = true ↔ s.offset = 1 := by
  cases s <;> simp [Semicolon.span, Semicolon.offset]

/-- C6: a declarator built by the (spec-modelled) declaration routine
has `initializer_whitespace` present exactly when `value` is present. -/
theorem declarator_initializer_invariant (span : Span) (name : LiteralExpr)
    (initializer : Option (LiteralWhitespace × Expr)) :
    ((mkDeclarator span name initializer).initializer_whitespace).isSome
      = ((mkDeclarator span name initializer).value).isSome := by
  cases initializer <;> rfl

/-- C5 (amended): `StmtListItem` is the sum `Declaration | Stmt`, but a
block body and a switch-case body store `Stmt` directly, so every one
of their elements, viewed as a statement-list item, is a statement —
a declaration cannot appear as a direct element of those lists. -/
theorem stmt_list_item_shapes :
    (∀ i : StmtListItem,
        (∃ d, i = StmtListItem.Declaration d) ∨ (∃ s, i = StmtListItem.Stmt s))
    ∧ (∀ (b : BlockStmt) (i : StmtListItem), i ∈ b.items → i.isStmt = true)
    ∧ (∀ (c : Case) (i : StmtListItem), i ∈ c.items → i.isStmt = true) := by
  refine ⟨fun i => ?_, fun b i hi => ?_, fun c i hi => ?_⟩
  · cases i with
    | Declaration d => exact Or.inl ⟨d, rfl⟩
    | Stmt s => exact Or.inr ⟨s, rfl⟩
  · simp only [BlockStmt.items, List.mem_map] at hi
    obtain ⟨s, _, rfl⟩ := hi
    rfl
  · simp only [Case.items, List.mem_map] at hi
    obtain ⟨s, _, rfl⟩ := hi
    rfl

/-- C5 counterexample: at a concrete block and a concrete case, every
element of the body is a statement item, while a concrete declaration
item is not a statement item — so the declaration does not appear. -/
theorem block_items_all_stmts_cex :
    (cexBlock.items.all StmtListItem.isStmt) = true
    ∧ StmtListItem.isStmt (StmtListItem.Declaration decl0) = false
    ∧ (case0.items.all StmtListItem.isStmt) = true :=
  ⟨rfl, rfl, rfl⟩

/-- C7: a try statement the (spec-modelled) parser returns without a
diagnostic has at least one of handler and finalizer present; parsing
the `try { } finally { }` shape yields `handler: None` and
`finalizer: Some(_)` with no diagnostic; and a try with neither clause
yields a diagnostic, so it is not representable as valid. -/
theorem try_stmt_invariant :
    (∀ (sp : Span) (tw : LiteralWhitespace) (tb : BlockStmt)
        (h : Option CatchClause) (fc : Option (LiteralWhitespace × BlockStmt)),
        (parseTry sp tw tb h fc).2 = [] →
          (((parseTry sp tw tb h fc).1.handler).isSome
            || ((parseTry sp tw tb h fc).1.finalizer).isSome) = true)
    ∧ (∀ (sp : Span) (tw fw : LiteralWhitespace) (tb fb : BlockStmt),
        (parseTry sp tw tb none (some (fw, fb))).1.handler = none
        ∧ (parseTry sp tw tb none (some (fw, fb))).1.finalizer = some fb
        ∧ (parseTry sp tw tb none (some (fw, fb))).2 = [])
    ∧ (∀ (sp : Span) (tw : LiteralWhitespace) (tb : BlockStmt),
        (parseTry sp tw tb none none).2 ≠ []) := by
  refine ⟨?_, ?_, ?_⟩
  · intro sp tw tb h fc hdiag
    cases h with
    | some c => simp [parseTry, TryStmt.handler]
    | none =>
      cases fc with
      | none => simp [parseTry] at hdiag
      | some p => simp [parseTry, TryStmt.handler, TryStmt.finalizer]
  · intro sp tw fw tb fb
    exact ⟨rfl, rfl, rfl⟩
  · intro sp tw tb
    simp [parseTry]

/-- C9 helper: every variant index is realized by a concrete statement. -/
theorem stmt_tag_ofTag : ∀ i : Fin 17, Stmt.tag (Stmt.ofTag i) = i := by
  decide

/-- C9: `Stmt` is a closed sum over exactly the 17 statement variants —
every index of `Stmt.tag` is realized and `Stmt::span` is the total
function that, on each of the 17 variants, returns the `span` field
stored on the wrapped struct. -/
theorem stmt_span_dispatch :
    (∀ data : VarStmt, (Stmt.Variable data).span = data.span)
    ∧ (∀ data : EmptyStmt, (Stmt.Empty data).span = data.span)
    ∧ (∀ data : BlockStmt, (Stmt.Block data).span = data.span)
    ∧ (∀ data : ExprStmt, (Stmt.Expr data).span = data.span)
    ∧ (∀ data : IfStmt, (Stmt.If data).span = data.span)
    ∧ (∀ data : SwitchStmt, (Stmt.Switch data).span = data.span)
    ∧ (∀ data : ThrowStmt, (Stmt.Throw data).span = data.span)
    ∧ (∀ data : WhileStmt, (Stmt.While data).span = data.span)
    ∧ (∀ data : DoWhileStmt, (Stmt.DoWhile data).span = data.span)
    ∧ (∀ data : LabelledStmt, (Stmt.Labelled data).span = data.span)
    ∧ (∀ data : BreakStmt, (Stmt.Break data).span = data.span)
    ∧ (∀ data : ContinueStmt, (Stmt.Continue data).span = data.span)
    ∧ (∀ data : ReturnStmt, (Stmt.Return data).span = data.span)
    ∧ (∀ data : TryStmt, (Stmt.Try data).span = data.span)
    ∧ (∀ data : ForStmt, (Stmt.For data).span = data.span)
    ∧ (∀ data : ForInStmt, (Stmt.ForIn data).span = data.span)
    ∧ (∀ data : WithStmt, (Stmt.With data).span = data.span)
    ∧ Function.Surjective Stmt.tag := by
  refine ⟨fun _ => rfl, fun _ => rfl, fun _ => rfl, fun _ => rfl, fun _ => rfl,
    fun _ => rfl, fun _ => rfl, fun _ => rfl, fun _ => rfl, fun _ => rfl,
    fun _ => rfl, fun _ => rfl, fun _ => rfl, fun _ => rfl, fun _ => rfl,
    fun _ => rfl, fun _ => rfl, fun i => ⟨Stmt.ofTag i, stmt_tag_ofTag i⟩⟩

/-- C8 helper: a `default:` clause at the head adds one to the default
count. -/
theorem countDefaults_default_cons (sp : Span) (ws cw : LiteralWhitespace)
    (body : List Stmt) (rest : List CaseClause) :
    countDefaults (CaseClause.Default sp ws cw body :: rest)
      = countDefaults rest + 1 := by
  simp [countDefaults, List.countP_cons, CaseClause.isDefault]

/-- C8 helper: a switch body with no `default:` clause parses to the
clause-wise translation, whatever the seen-default flag. -/
theorem parseCases_noDefault :
    ∀ (cls : List CaseClause), countDefaults cls = 0 →
      ∀ seenDefault : Bool, (parseCases cls seenDefault).1 = cls.map mkCase := by
  intro cls
  induction cls with
  | nil => intro _ _; rfl
  | cons c rest ih =>
    intro h seenDefault
    cases c with
    | Case sp ws cw t body =>
      have hr : countDefaults rest = 0 := by
        simpa [countDefaults, List.countP_cons, CaseClause.isDefault] using h
      simp [parseCases, mkCase, ih hr seenDefault]
    | Default sp ws cw body =>
      exact absurd h (by simp [countDefaults, List.countP_cons, CaseClause.isDefault])

/-- C8 helper: a switch body with at most one `default:` clause parses
to the clause-wise translation, preserving source order. -/
theorem parseCases_valid :
    ∀ (cls : List CaseClause), countDefaults cls ≤ 1 →
      (parseCases cls false).1 = cls.map mkCase := by
  intro cls
  induction cls with
  | nil => intro _; rfl
  | cons c rest ih =>
    intro h
    cases c with
    | Case sp ws cw t body =>
      have hr : countDefaults rest ≤ 1 := by
        simpa [countDefaults, List.countP_cons, CaseClause.isDefault] using h
      simp [parseCases, mkCase, ih hr]
    | Default sp ws cw body =>
      have hr : countDefaults rest = 0 := by
        rw [countDefaults_default_cons] at h
        omega
      simp [parseCases, mkCase, parseCases_noDefault rest hr true]

/-- C8 helper: the number of `default = true` cases the parse produces
is zero once a default has been seen, and otherwise at most one. -/
theorem parseCases_countP :
    ∀ (cls : List CaseClause) (seenDefault : Bool),
      ((parseCases cls seenDefault).1).countP Case.default
        = if seenDefault then 0 else min (countDefaults cls) 1 := by
  intro cls
  induction cls with
  | nil => intro seenDefault; cases seenDefault <;> simp [parseCases, countDefaults]
  | cons c rest ih =>
    intro seenDefault
    cases c with
    | Case sp ws cw t body =>
      cases seenDefault <;>
        simp [parseCases, List.countP_cons, Case.default, ih, countDefaults,
          CaseClause.isDefault]
    | Default sp ws cw body =>
      cases seenDefault
      · have h1 : min (countDefaults rest + 1) 1 = 1 :=
          Nat.min_eq_right (Nat.succ_le_succ (Nat.zero_le _))
        simp [parseCases, List.countP_cons, Case.default, ih, countDefaults,
          CaseClause.isDefault, h1]
      · simp [parseCases, List.countP_cons, Case.default, ih, countDefaults,
          CaseClause.isDefault]

/-- C8 helper: the parse emits one diagnostic per `default:` clause
beyond the first. -/
theorem parseCases_diags :
    ∀ (cls : List CaseClause) (seenDefault : Bool),
      ((parseCases cls seenDefault).2).length
        = if seenDefault then countDefaults cls else countDefaults cls - 1 := by
  intro cls
  induction cls with
  | nil => intro seenDefault; cases seenDefault <;> simp [parseCases, countDefaults]
  | cons c rest ih =>
    intro seenDefault
    cases c with
    | Case sp ws cw t body =>
      cases seenDefault <;>
        simp [parseCases, ih, countDefaults, List.countP_cons, CaseClause.isDefault]
    | Default sp ws cw body =>
      cases seenDefault <;>
        simp [parseCases, ih, countDefaults, List.countP_cons, CaseClause.isDefault,
          Nat.add_comm]

/-- C8: for a switch built by the (spec-modelled) parser: at most one
case has `default = true` (exactly one when the input has exactly one
`default:` clause); a default case has `test = None` and a non-default
case has `test = Some`; a valid (at most one default) body parses to
the clause-wise translation in source order; and a body with two
`default:` clauses yields a recoverable diagnostic. -/
theorem switch_default_invariant :
    (∀ (sp : Span) (sw op cp ob cb : LiteralWhitespace) (t : Expr)
        (cls : List CaseClause),
        (((parseSwitch sp sw op cp t ob cb cls).1.cases).countP Case.default) ≤ 1)
    ∧ (∀ cls : List CaseClause, countDefaults cls = 1 →
        ((parseSwitchCases cls).1.countP Case.default) = 1)
    ∧ (∀ cl : CaseClause,
        ((mkCase cl).default = true ∧ (mkCase cl).test = none)
        ∨ ((mkCase cl).default = false ∧ ((mkCase cl).test).isSome = true))
    ∧ (∀ cls : List CaseClause, countDefaults cls ≤ 1 →
        (parseSwitchCases cls).1 = cls.map mkCase)
    ∧ (∀ (cls : List CaseClause) (c : Case), countDefaults cls ≤ 1 →
        c ∈ (parseSwitchCases cls).1 →
          ((c.default = true → c.test = none)
            ∧ (c.default = false → (c.test).isSome = true)))
    ∧ (∀ cls : List CaseClause, 2 ≤ countDefaults cls →
        (parseSwitchCases cls).2 ≠ []) := by
  have hdich : ∀ cl : CaseClause,
      ((mkCase cl).default = true ∧ (mkCase cl).test = none)
      ∨ ((mkCase cl).default = false ∧ ((mkCase cl).test).isSome = true) := by
    intro cl
    cases cl with
    | Case sp ws cw t body => exact Or.inr ⟨rfl, rfl⟩
    | Default sp ws cw body => exact Or.inl ⟨rfl, rfl⟩
  refine ⟨?_, ?_, hdich, ?_, ?_, ?_⟩
  · intro sp sw op cp ob cb t cls
    have h := parseCases_countP cls false
    simp only [if_neg Bool.false_ne_true] at h
    calc (((parseSwitch sp sw op cp t ob cb cls).1.cases).countP Case.default)
        = min (countDefaults cls) 1 := h
      _ ≤ 1 := Nat.min_le_right _ _
  · intro cls h1
    have h := parseCases_countP cls false
    simp only [if_neg Bool.false_ne_true, h1] at h
    exact h
  · intro cls h
    exact parseCases_valid cls h
  · intro cls c hle hmem
    rw [parseSwitchCases, parseCases_valid cls hle] at hmem
    rcases List.mem_map.mp hmem with ⟨cl, _, rfl⟩
    rcases hdich cl with ⟨hd, ht⟩ | ⟨hd, ht⟩
    · exact ⟨fun _ => ht, fun hfalse => (by rw [hd] at hfalse; cases hfalse)⟩
    · exact ⟨fun htrue => (by rw [hd] at htrue; cases htrue), fun _ => ht⟩
  · intro cls h2 hnil
    have h := parseCases_diags cls false
    rw [parseSwitchCases] at hnil
    rw [hnil] at h
    simp only [List.length_nil, if_neg Bool.false_ne_true] at h
    omega
